import Mathlib

/-!
Verification of the upload-validation and request-dispatch pipeline of the
HandToTTS backend (a FastAPI OCR facade).  The Python sources `app/config.py`,
`app/utils.py` and `app/routes.py` are embedded shallowly below: pure Python
functions become Lean functions, the external gateways (vision model, speech
synthesizer, image decoder) become oracle parameters, and exceptions become
`Except` values.  Python big integers are `Int`, byte strings are lists of
bytes, and the one float computation (`max_file_size / (1024*1024)`) is
modelled by correctly rounded binary64 division, as CPython implements true
division of integers.
-/

/-! ## Binary64 model for the one Python float computation -/

/-- Round a rational to the nearest integer, ties to even — the rounding mode
of IEEE-754 binary64 arithmetic used by CPython float operations. -/
def roundHalfEven (q : ℚ) : ℤ :=
  let f : ℤ := ⌊q⌋
  let r : ℚ := q - (f : ℚ)
  if r < 1/2 then f
  else if 1/2 < r then f + 1
  else if f % 2 = 0 then f else f + 1

/-- Integer power of two as a rational, with an integer (possibly negative)
exponent. -/
def qpow2 (e : ℤ) : ℚ :=
  if 0 ≤ e then (2 : ℚ) ^ e.toNat else 1 / (2 : ℚ) ^ (-e).toNat

/-- Correctly rounded binary64 value of `a / 2 ^ k` for a natural `a`: the
quotient lies in `[2 ^ L, 2 ^ (L+1))` with `L = log2 a - k`, so it is scaled
by `2 ^ (52 - L)` to a 53-bit significand, rounded half-to-even, and scaled
back.  The result is the exact rational value of the resulting double. -/
def pyFloatDivPow2Pos (a k : ℕ) : ℚ :=
  ((roundHalfEven (((a : ℚ) / (2 : ℚ) ^ k) * qpow2 (52 - ((Nat.log2 a : ℤ) - k)))) : ℚ)
    * qpow2 (((Nat.log2 a : ℤ) - k) - 52)

/-- Modelled CPython semantics of `x / (2**k)` on an `int` operand: true
division producing the correctly rounded binary64 value (normal range; the
values this program divides are far from overflow and underflow), as the
exact rational value of that double. -/
def pyFloatDivPow2 (x : ℤ) (k : ℕ) : ℚ :=
  if x = 0 then 0
  else if x < 0 then -pyFloatDivPow2Pos x.natAbs k
  else pyFloatDivPow2Pos x.natAbs k

/-- Modelled CPython `format(f, ".2f")` on a binary64 value given by its exact
rational value `q`: the exact value is rounded to two decimal places (ties to
even; for dyadic `q` a tie is impossible) and printed with exactly two digits
after the point. -/
def formatFixed2 (q : ℚ) : String :=
  let c : ℤ := roundHalfEven (q * 100)
  let sign : String := if q < 0 then "-" else ""
  let a : ℕ := c.natAbs
  let whole : ℕ := a / 100
  let frac : ℕ := a % 100
  sign ++ toString whole ++ "." ++ (if frac < 10 then "0" ++ toString frac else toString frac)

/-! ## app/config.py -/

/-- Embedding of `Settings` (app/config.py).  Fields not consulted by any
claim (CORS lists, logging policy, debug flags) carry the same defaults but
are omitted where they play no role.  Defaults are the source defaults. -/
structure Settings where
  app_name : String := "OCR API"
  app_version : String := "1.0.0"
  host : String := "0.0.0.0"
  port : ℤ := 8000
  gemini_api_key : String := ""
  gemini_model : String := "gemini-2.0-flash"
  max_file_size : ℤ := 20 * 1024 * 1024
  allowed_file_types : List String :=
    ["image/jpeg", "image/png", "image/gif", "image/webp"]
deriving DecidableEq, Repr

/-- The module-level `settings = Settings()` singleton of app/config.py,
holding every default. -/
def settings : Settings := {}

/-- A settings value with an upload limit of `2 ^ 53 + 1` bytes, at which the
binary64 division in `max_file_size_mb` rounds. -/
def bigSettings : Settings := { max_file_size := 2 ^ 53 + 1 }

/-- Embedding of the error list built inside `Settings.validate`
(app/config.py lines 62-75): one message per failed check, in source order.
The Python truthiness test `not self.gemini_api_key` on a `str` holds exactly
for the empty string. -/
def Settings.validateErrors (s : Settings) : List String :=
  (if s.gemini_api_key = "" then ["GEMINI_API_KEY is not set in environment variables"] else []) ++
  (if s.max_file_size ≤ 0 then ["MAX_FILE_SIZE must be greater than 0"] else []) ++
  (if ¬ (1 ≤ s.port ∧ s.port ≤ 65535) then ["PORT must be between 1 and 65535"] else [])

/-- Embedding of `Settings.validate`: returns `false` iff the error list is
non-empty (the Python function logs each error and returns `False`; it never
raises, which the totality of this definition reflects). -/
def Settings.validate (s : Settings) : Bool :=
  s.validateErrors.isEmpty

/-- Embedding of `Settings.is_file_type_allowed`: Python `in` on a list of
strings is membership by string equality. -/
def Settings.is_file_type_allowed (s : Settings) (content_type : String) : Bool :=
  s.allowed_file_types.contains content_type

/-- Embedding of the `max_file_size_mb` property:
`self.max_file_size / (1024 * 1024)` with `1024 * 1024 = 2 ^ 20`, CPython true
division of an `int` by an `int` producing a binary64 float, modelled by
`pyFloatDivPow2`. -/
def Settings.max_file_size_mb (s : Settings) : ℚ :=
  pyFloatDivPow2 s.max_file_size 20

/-! ## app/utils.py -/

/-- Embedding of `fastapi.HTTPException` as raised by this program: a status
code and a string detail. -/
structure HTTPException where
  status_code : ℕ
  detail : String
deriving DecidableEq, Repr

/-- Detail string of the 400 rejection in `_validate_upload`:
`f"Invalid file type. Allowed: \x7ballowed\x7d"` with
`allowed = ", ".join(settings.allowed_file_types)`. -/
def invalidTypeDetail (s : Settings) : String :=
  "Invalid file type. Allowed: " ++ String.intercalate ", " s.allowed_file_types

/-- Detail string of the 413 rejection in `_validate_upload`:
`f"File too large. Maximum size is \x7bsettings.max_file_size_mb:.2f\x7dMB"`. -/
def tooLargeDetail (s : Settings) : String :=
  "File too large. Maximum size is " ++ formatFixed2 s.max_file_size_mb ++ "MB"

/-- Embedding of `_validate_upload` (app/utils.py lines 12-24).  The inputs it
consults are the declared content type of the upload and `len(contents)`;
raising an `HTTPException` becomes returning `.error`.  The content-type check
comes first, the size check second. -/
def «_validate_upload» (s : Settings) (content_type : String) (length : ℕ) :
    Except HTTPException Unit :=
  if ¬ s.is_file_type_allowed content_type then
    .error ⟨400, invalidTypeDetail s⟩
  else if (length : ℤ) > s.max_file_size then
    .error ⟨413, tooLargeDetail s⟩
  else
    .ok ()


/-- State-passing rendering of `_validate_upload` for the purity claim: it
returns the outcome, the settings object after the call, and the list of
messages emitted to the logging collaborator (`logger.warning` calls in the
source).  The function body reads the settings and never assigns to them. -/
def «_validate_upload_run» (s : Settings) (content_type : String) (length : ℕ) :
    (Except HTTPException Unit) × Settings × List String :=
  if ¬ s.is_file_type_allowed content_type then
    (.error ⟨400, invalidTypeDetail s⟩, s, ["Invalid file type: " ++ content_type])
  else if (length : ℤ) > s.max_file_size then
    (.error ⟨413, tooLargeDetail s⟩, s,
      ["File too large: " ++ toString length ++ " bytes (max: " ++ toString s.max_file_size ++ ")"])
  else
    (.ok (), s, [])

/-! ## Python library helpers used by app/utils.py and app/routes.py -/

/-- Index of the last occurrence of a character in a list, if any. -/
def rfindChar : List Char → Char → Option ℕ
  | [], _ => none
  | x :: xs, c =>
    match rfindChar xs c with
    | some j => some (j + 1)
    | none => if x == c then some 0 else none

/-- Python `str.rfind` on a single character: index of the last occurrence,
`-1` when absent. -/
def pyRFind (l : List Char) (c : Char) : ℤ :=
  match rfindChar l c with
  | some j => (j : ℤ)
  | none => -1

/-- Root part of CPython `os.path.splitext` (posixpath): split at the last
dot that comes after the last path separator, provided at least one non-dot
character stands between the separator and that dot (so leading dots of a
basename never start an extension). -/
def splitextRoot (p : String) : String :=
  let l := p.data
  let sepIndex := pyRFind l '/'
  let dotIndex := pyRFind l '.'
  if sepIndex < dotIndex then
    if (List.range l.length).any
        (fun k => decide (sepIndex < (k : ℤ)) && decide ((k : ℤ) < dotIndex)
          && (l.getD k '.' != '.')) then
      String.mk (l.take dotIndex.toNat)
    else p
  else p


/-- Python whitespace as consulted by `str.strip()`; the ASCII whitespace
characters (Python additionally strips the rarer Unicode space characters,
which no claim turns on). -/
def pyIsSpace (c : Char) : Bool :=
  c == ' ' || c == '\t' || c == '\n' || c == '\r' || c == '\x0b' || c == '\x0c'

/-- Python `str.strip()`: drop whitespace from both ends. -/
def pyStrip (t : String) : String :=
  String.mk (((t.data.dropWhile pyIsSpace).reverse.dropWhile pyIsSpace).reverse)


/-! ## app/routes.py -/

/-- Responses this program builds: downloadable text, downloadable audio, or
an error status with a detail string (an `HTTPException` surfaced by
FastAPI).  Attachment responses carry the body, the media type and the
Content-Disposition header value. -/
inductive HttpResponse where
  | text (content : String) (media_type : String) (content_disposition : String)
  | audio (content : List ℕ) (media_type : String) (content_disposition : String)
  | error (status_code : ℕ) (detail : String)
deriving DecidableEq, Repr

/-- Outcome of one dispatched request, together with whether the text
extraction gateway (`_extract_text`, the Gemini call) and the speech
synthesis gateway (`gTTS`) were invoked while handling it. -/
structure DispatchResult where
  response : HttpResponse
  extractCalled : Bool
  synthCalled : Bool
deriving DecidableEq, Repr

/-- An uploaded file as the handlers consult it: original filename and
declared content type (the raw bytes are passed separately). -/
structure UploadFile where
  filename : String
  content_type : String
deriving DecidableEq, Repr

/-- The fixed default prompt of app/routes.py. -/
def DEFAULT_PROMPT : String :=
  "Extract all text from this image. Preserve the layout and structure as much as possible."

/-- Embedding of `_text_response` (app/utils.py lines 35-42): the extracted
text verbatim as a text/plain attachment named after the upload with its
extension stripped. -/
def «_text_response» (text : String) (filename : String) : HttpResponse :=
  .text text "text/plain; charset=utf-8"
    ("attachment; filename=\"" ++ splitextRoot filename ++ "_extracted.txt\"")

/-- Embedding of `_text_to_audio_response` (app/utils.py): the speech
synthesis gateway (gTTS) is an oracle returning MP3 bytes or raising; on
success the bytes become an audio/mpeg attachment. -/
def «_text_to_audio_response» (synthFn : String → String → Except String (List ℕ))
    (text : String) (filename : String) (lang : String) : Except String HttpResponse :=
  match synthFn text lang with
  | .error e => .error e
  | .ok bytes =>
      .ok (.audio bytes "audio/mpeg"
        ("attachment; filename=\"" ++ splitextRoot filename ++ "_audio.mp3\""))

/-- Embedding of the `/ocr` handler `extract_text` (app/routes.py lines
31-50).  `decodeImage` is the PIL `Image.open` sanity check; `extractFn` the
Gemini gateway; both may raise (return `.error`), and any such exception is
caught by the generic handler and folded into a 500 whose detail carries the
summarized cause.  An `HTTPException` raised by the validator is re-raised
unchanged. -/
def extract_text (s : Settings)
    (decodeImage : List ℕ → Except String Unit)
    (extractFn : List ℕ → String → String → Except String String)
    (file : UploadFile) (contents : List ℕ) : DispatchResult :=
  match «_validate_upload» s file.content_type contents.length with
  | .error e => ⟨.error e.status_code e.detail, false, false⟩
  | .ok _ =>
    match decodeImage contents with
    | .error msg => ⟨.error 500 ("Error processing image: " ++ msg), false, false⟩
    | .ok _ =>
      match extractFn contents file.content_type DEFAULT_PROMPT with
      | .error msg => ⟨.error 500 ("Error processing image: " ++ msg), true, false⟩
      | .ok text => ⟨«_text_response» text file.filename, true, false⟩

/-- Embedding of the `/ocr-with-prompt` handler `extract_text_with_prompt`
(app/routes.py lines 53-72): as `/ocr` but with a caller-supplied prompt. -/
def extract_text_with_prompt (s : Settings)
    (decodeImage : List ℕ → Except String Unit)
    (extractFn : List ℕ → String → String → Except String String)
    (file : UploadFile) (contents : List ℕ) (prompt : String) : DispatchResult :=
  match «_validate_upload» s file.content_type contents.length with
  | .error e => ⟨.error e.status_code e.detail, false, false⟩
  | .ok _ =>
    match decodeImage contents with
    | .error msg => ⟨.error 500 ("Error processing image: " ++ msg), false, false⟩
    | .ok _ =>
      match extractFn contents file.content_type prompt with
      | .error msg => ⟨.error 500 ("Error processing image: " ++ msg), true, false⟩
      | .ok text => ⟨«_text_response» text file.filename, true, false⟩

/-- Embedding of the `/ocr-audio` handler `extract_text_as_audio`
(app/routes.py lines 75-104): validate, decode, extract; when the extracted
text strips to empty, raise 422 before any synthesis; otherwise synthesize
and return the MP3 attachment.  Exceptions other than `HTTPException` fold
into the generic 500. -/
def extract_text_as_audio (s : Settings)
    (decodeImage : List ℕ → Except String Unit)
    (extractFn : List ℕ → String → String → Except String String)
    (synthFn : String → String → Except String (List ℕ))
    (file : UploadFile) (contents : List ℕ) (lang : String) : DispatchResult :=
  match «_validate_upload» s file.content_type contents.length with
  | .error e => ⟨.error e.status_code e.detail, false, false⟩
  | .ok _ =>
    match decodeImage contents with
    | .error msg => ⟨.error 500 ("Error processing image: " ++ msg), false, false⟩
    | .ok _ =>
      match extractFn contents file.content_type DEFAULT_PROMPT with
      | .error msg => ⟨.error 500 ("Error processing image: " ++ msg), true, false⟩
      | .ok text =>
        if pyStrip text = "" then
          ⟨.error 422 "No text found in the image.", true, false⟩
        else
          match «_text_to_audio_response» synthFn text file.filename lang with
          | .error msg => ⟨.error 500 ("Error processing image: " ++ msg), true, true⟩
          | .ok resp => ⟨resp, true, true⟩

/-- Embedding of the `/text-to-audio` handler `text_to_audio` (app/routes.py
lines 107-135): reject empty or whitespace-only text with 400 before any
synthesis; otherwise synthesize (inline gTTS call) and return the fixed-name
MP3 attachment; a synthesis exception folds into a 500. -/
def text_to_audio (synthFn : String → String → Except String (List ℕ))
    (text : String) (lang : String) : DispatchResult :=
  if pyStrip text = "" then
    ⟨.error 400 "Text cannot be empty.", false, false⟩
  else
    match synthFn text lang with
    | .error msg => ⟨.error 500 ("Error converting text to audio: " ++ msg), false, true⟩
    | .ok bytes =>
        ⟨.audio bytes "audio/mpeg" "attachment; filename=\"text_audio.mp3\"", false, true⟩

/-! ## Helper lemmas: the binary64 division is exact below 2 ^ 53 -/

theorem roundHalfEven_intCast (n : ℤ) : roundHalfEven (n : ℚ) = n := by
  simp [roundHalfEven, Int.floor_intCast]

theorem qpow2_ofNat (n : ℕ) : qpow2 (n : ℤ) = (2 : ℚ) ^ n := by
  simp [qpow2]

theorem qpow2_nonpos (e : ℤ) (he : e ≤ 0) : qpow2 e = 1 / (2 : ℚ) ^ (-e).toNat := by
  unfold qpow2
  by_cases h0 : 0 ≤ e
  · have h : e = 0 := le_antisymm he h0
    subst h
    norm_num
  · rw [if_neg h0]

theorem pyFloatDivPow2Pos_exact (a k : ℕ) (ha : a < 2 ^ 53) :
    pyFloatDivPow2Pos a k = (a : ℚ) / (2 : ℚ) ^ k := by
  have hLa : Nat.log2 a ≤ 52 := by
    rcases Nat.eq_zero_or_pos a with h | h
    · simp [h, Nat.log2_zero]
    · have := (Nat.log2_lt (by omega)).mpr (by omega : a < 2 ^ 53)
      omega
  unfold pyFloatDivPow2Pos
  have h1 : (52 - ((Nat.log2 a : ℤ) - k)) = ((52 - Nat.log2 a + k : ℕ) : ℤ) := by omega
  rw [h1, qpow2_ofNat]
  have h2 : ((a : ℚ) / (2 : ℚ) ^ k) * (2 : ℚ) ^ (52 - Nat.log2 a + k)
      = (((a * 2 ^ (52 - Nat.log2 a) : ℕ) : ℤ) : ℚ) := by
    push_cast
    rw [pow_add]
    field_simp
    ring
  rw [h2, roundHalfEven_intCast]
  have hA : (-((((Nat.log2 a : ℤ) - k)) - 52)).toNat = 52 - Nat.log2 a + k := by omega
  rw [qpow2_nonpos _ (by omega), hA, pow_add]
  push_cast
  field_simp
  ring

theorem pyFloatDivPow2_exact (x : ℤ) (k : ℕ) (hx : x.natAbs < 2 ^ 53) :
    pyFloatDivPow2 x k = (x : ℚ) / (2 : ℚ) ^ k := by
  unfold pyFloatDivPow2
  rcases lt_trichotomy x 0 with h | h | h
  · rw [if_neg (by omega), if_pos h, pyFloatDivPow2Pos_exact _ _ hx]
    rw [Int.cast_natAbs, abs_of_neg h]
    push_cast
    ring
  · subst h
    norm_num
  · rw [if_neg (by omega), if_neg (by omega), pyFloatDivPow2Pos_exact _ _ hx]
    rw [Int.cast_natAbs, abs_of_pos h]

/-- At an exact tie (an even integer plus one half) the rounding goes to the
even neighbour. -/
theorem roundHalfEvenTie (m : ℤ) (hm : m % 2 = 0) :
    roundHalfEven ((m : ℚ) + 1/2) = m := by
  have hf : ⌊(m : ℚ) + 1/2⌋ = m := by
    rw [Int.floor_eq_iff]
    constructor
    · norm_num
    · norm_num
  simp only [roundHalfEven, hf]
  norm_num [hm]

/-- The default 20MB limit divides exactly: the reported MB value is 20. -/
theorem settings_mb : settings.max_file_size_mb = 20 := by
  have h : settings.max_file_size = 20971520 := rfl
  rw [Settings.max_file_size_mb, h, pyFloatDivPow2_exact _ _ (by decide)]
  norm_num

/-- Two-decimal formatting of the exact value 20. -/
theorem formatFixed2_twenty : formatFixed2 (20 : ℚ) = "20.00" := by
  have h1 : roundHalfEven ((20 : ℚ) * 100) = 2000 := by
    have e : ((20 : ℚ) * 100) = ((2000 : ℤ) : ℚ) := by norm_num
    rw [e, roundHalfEven_intCast]
  rw [formatFixed2, h1, if_neg (by norm_num : ¬ (20 : ℚ) < 0)]
  decide

/-- At `max_file_size = 2 ^ 53 + 1` the quotient by `2 ^ 20` scales to the
significand `2 ^ 52 + 1/2`, an exact tie, and rounds down to `2 ^ 52`: the
reported MB value is `2 ^ 33`, not the exact quotient. -/
theorem bigSettings_mb : bigSettings.max_file_size_mb = 2 ^ 33 := by
  have hmax : bigSettings.max_file_size = 9007199254740993 := by norm_num [bigSettings]
  have hlog : Nat.log2 9007199254740993 = 53 := by norm_num [Nat.log2]
  have hNatAbs : (9007199254740993 : ℤ).natAbs = 9007199254740993 := rfl
  rw [Settings.max_file_size_mb, hmax, pyFloatDivPow2]
  rw [if_neg (by norm_num), if_neg (by norm_num), hNatAbs]
  rw [pyFloatDivPow2Pos, hlog]
  have e1 : ((52 : ℤ) - (((53 : ℕ) : ℤ) - ((20 : ℕ) : ℤ))) = ((19 : ℕ) : ℤ) := by norm_num
  have e2 : ((((53 : ℕ) : ℤ) - ((20 : ℕ) : ℤ)) - 52) = -((19 : ℕ) : ℤ) := by norm_num
  rw [e1, e2, qpow2_ofNat, qpow2_nonpos _ (by norm_num)]
  have harg : ((9007199254740993 : ℕ) : ℚ) / (2 : ℚ) ^ 20 * (2 : ℚ) ^ (19 : ℕ)
      = ((4503599627370496 : ℤ) : ℚ) + 1/2 := by
    norm_num
  rw [harg, roundHalfEvenTie _ (by decide)]
  simp only [neg_neg, Int.toNat_natCast]
  norm_num

/-! ## Validator lemmas -/

theorem validate_upload_badtype (s : Settings) (ct : String) (n : ℕ)
    (h : s.is_file_type_allowed ct = false) :
    «_validate_upload» s ct n = .error ⟨400, invalidTypeDetail s⟩ := by
  simp [«_validate_upload», h]

theorem validate_upload_goodtype_large (s : Settings) (ct : String) (n : ℕ)
    (hct : s.is_file_type_allowed ct = true) (h : s.max_file_size < (n : ℤ)) :
    «_validate_upload» s ct n = .error ⟨413, tooLargeDetail s⟩ := by
  simp [«_validate_upload», hct, h]

theorem validate_upload_accept (s : Settings) (ct : String) (n : ℕ)
    (hct : s.is_file_type_allowed ct = true) (h : (n : ℤ) ≤ s.max_file_size) :
    «_validate_upload» s ct n = .ok () := by
  simp [«_validate_upload», hct, not_lt.mpr h]

/-! ## Claims about the upload validator and configuration -/

/-- Claim C1: for every allowed declared content type and every byte length
strictly greater than the configured limit, the validator rejects with the
413 TooLarge error whose message states the configured limit in MB rounded to
two decimals; for every byte length at or below the limit with an allowed
type, it accepts.  The side condition keeps the limit below `2 ^ 53` bytes,
where the binary64 value the message prints is the exact quotient. -/
theorem claim_C1 (s : Settings) (ct : String) (n : ℕ)
    (hct : s.is_file_type_allowed ct = true)
    (hsz : s.max_file_size.natAbs < 2 ^ 53) :
    (s.max_file_size < (n : ℤ) →
      «_validate_upload» s ct n = .error ⟨413,
        "File too large. Maximum size is "
          ++ formatFixed2 ((s.max_file_size : ℚ) / (1024 * 1024)) ++ "MB"⟩) ∧
    ((n : ℤ) ≤ s.max_file_size → «_validate_upload» s ct n = .ok ()) := by
  have hdet : tooLargeDetail s
      = "File too large. Maximum size is "
          ++ formatFixed2 ((s.max_file_size : ℚ) / (1024 * 1024)) ++ "MB" := by
    rw [tooLargeDetail, Settings.max_file_size_mb, pyFloatDivPow2_exact _ _ hsz]
    norm_num
  constructor
  · intro h
    rw [validate_upload_goodtype_large s ct n hct h, hdet]
  · intro h
    exact validate_upload_accept s ct n hct h

/-- Concrete run of claim C1 on the default settings: one byte over the 20MB
limit is rejected with the 20.00MB message, and exactly the limit passes. -/
theorem claim_C1_witness :
    «_validate_upload» settings "image/png" 20971521
        = .error ⟨413, "File too large. Maximum size is 20.00MB"⟩ ∧
    «_validate_upload» settings "image/png" 20971520 = .ok () := by
  have h1 := (claim_C1 settings "image/png" 20971521 rfl (by decide)).1 (by decide)
  have h2 := (claim_C1 settings "image/png" 20971520 rfl (by decide)).2 (by decide)
  refine ⟨?_, h2⟩
  rw [h1]
  have e : ((settings.max_file_size : ℚ) / (1024 * 1024)) = 20 := by
    have hm : settings.max_file_size = 20971520 := rfl
    rw [hm]
    norm_num
  rw [e, formatFixed2_twenty]
  rfl

/-- Claim C2: every declared content type outside the allow-list is rejected
with the 400 UnsupportedType error, whose message enumerates the full allowed
set, comma-separated. -/
theorem claim_C2 (s : Settings) (ct : String) (n : ℕ)
    (h : s.is_file_type_allowed ct = false) :
    «_validate_upload» s ct n
      = .error ⟨400, "Invalid file type. Allowed: "
          ++ String.intercalate ", " s.allowed_file_types⟩ :=
  validate_upload_badtype s ct n h

/-- Concrete run of claim C2: text/plain is rejected and the message lists
all four allowed image types. -/
theorem claim_C2_witness :
    «_validate_upload» settings "text/plain" 5
      = .error ⟨400,
          "Invalid file type. Allowed: image/jpeg, image/png, image/gif, image/webp"⟩ :=
  claim_C2 settings "text/plain" 5 rfl

/-- Claim C10: the content-type check runs before the size check, so an
upload that is both of a disallowed type and oversized gets the 400
UnsupportedType error and never the 413 TooLarge error. -/
theorem claim_C10 (s : Settings) (ct : String) (n : ℕ)
    (hct : s.is_file_type_allowed ct = false) (hn : s.max_file_size < (n : ℤ)) :
    «_validate_upload» s ct n = .error ⟨400, invalidTypeDetail s⟩ ∧
    ∀ d : String, «_validate_upload» s ct n ≠ .error ⟨413, d⟩ := by
  have h := validate_upload_badtype s ct n hct
  refine ⟨h, ?_⟩
  intro d hd
  rw [h] at hd
  simp at hd

/-- Concrete run of claim C10: a gigabyte of text/plain against the default
20MB limit draws the 400 error, not the 413 one. -/
theorem claim_C10_witness :
    «_validate_upload» settings "text/plain" 1073741824
        = .error ⟨400, invalidTypeDetail settings⟩ ∧
    ∀ d : String, «_validate_upload» settings "text/plain" 1073741824 ≠ .error ⟨413, d⟩ :=
  claim_C10 settings "text/plain" 1073741824 rfl (by decide)

/-- Claim C6: `validate` never raises (it is a total function) and fails —
reports a non-empty error list and returns `False` — exactly when the
upstream credential is empty, the size limit is non-positive, or the bind
port lies outside `[1, 65535]`. -/
theorem claim_C6 (s : Settings) :
    (s.validateErrors ≠ []
      ↔ (s.gemini_api_key = "" ∨ s.max_file_size ≤ 0 ∨ ¬ (1 ≤ s.port ∧ s.port ≤ 65535))) ∧
    (s.validate = false ↔ s.validateErrors ≠ []) := by
  unfold Settings.validate Settings.validateErrors
  constructor
  · split_ifs <;> simp_all
  · split_ifs <;> simp_all

/-- Claim C8: the validator is a pure function of the declared content type,
the byte length and the settings.  In the state-passing rendering the
settings object comes back unchanged and the outcome coincides with the pure
function, so two invocations with identical inputs and identical settings
produce identical outcomes. -/
theorem claim_C8 (s : Settings) (ct : String) (n : ℕ) :
    («_validate_upload_run» s ct n).2.1 = s ∧
    («_validate_upload_run» s ct n).1 = «_validate_upload» s ct n := by
  unfold «_validate_upload_run» «_validate_upload»
  split_ifs <;> exact ⟨rfl, rfl⟩

/-- Counterexample to claim C9 as stated: at `max_file_size = 2 ^ 53 + 1`
the derived `max_file_size_mb` is `2 ^ 33`, while the exact quotient is
`2 ^ 33 + 2 ^ (-20)`; the float division rounds. -/
theorem claim_C9_counterexample :
    bigSettings.max_file_size_mb ≠ (bigSettings.max_file_size : ℚ) / (1024 * 1024) := by
  rw [bigSettings_mb]
  have hmax : bigSettings.max_file_size = 9007199254740993 := by norm_num [bigSettings]
  rw [hmax]
  norm_num

/-- Claim C9 (amended): whenever `max_file_size` is smaller than `2 ^ 53` in
absolute value — which covers the 20MB default and every realistic limit —
the derived `max_file_size_mb` equals `max_file_size / (1024 * 1024)`
exactly. -/
theorem claim_C9 (s : Settings) (hsz : s.max_file_size.natAbs < 2 ^ 53) :
    s.max_file_size_mb = (s.max_file_size : ℚ) / (1024 * 1024) := by
  rw [Settings.max_file_size_mb, pyFloatDivPow2_exact _ _ hsz]
  norm_num

/-- Concrete run of claim C9 on the default settings: the 20MB byte limit is
reported as exactly 20. -/
theorem claim_C9_witness :
    settings.max_file_size_mb = (settings.max_file_size : ℚ) / (1024 * 1024) ∧
    settings.max_file_size_mb = 20 :=
  ⟨claim_C9 settings (by decide), settings_mb⟩

/-! ## Claims about the request dispatcher -/

/-- Claim C3: empty or whitespace-only text never reaches the speech
synthesis gateway.  On `/ocr-audio`, when the extracted text strips to
empty, the response is the 422 no-text-found error and the synthesizer is
not called; on `/text-to-audio`, submitted text that strips to empty draws
the 400 empty-text error and the synthesizer is not called. -/
theorem claim_C3 (s : Settings)
    (decodeImage : List ℕ → Except String Unit)
    (extractFn : List ℕ → String → String → Except String String)
    (synthFn synthFn2 : String → String → Except String (List ℕ))
    (file : UploadFile) (contents : List ℕ) (lang : String)
    (t text2 lang2 : String)
    (hv : «_validate_upload» s file.content_type contents.length = .ok ())
    (hd : decodeImage contents = .ok ())
    (he : extractFn contents file.content_type DEFAULT_PROMPT = .ok t)
    (ht : pyStrip t = "")
    (ht2 : pyStrip text2 = "") :
    extract_text_as_audio s decodeImage extractFn synthFn file contents lang
      = ⟨.error 422 "No text found in the image.", true, false⟩ ∧
    text_to_audio synthFn2 text2 lang2
      = ⟨.error 400 "Text cannot be empty.", false, false⟩ := by
  constructor
  · unfold extract_text_as_audio
    rw [hv, hd, he]
    simp [ht]
  · unfold text_to_audio
    rw [if_pos ht2]

/-- Concrete run of claim C3: an extraction returning whitespace draws 422
with no synthesis call, and whitespace text to `/text-to-audio` draws 400
with no synthesis call. -/
theorem claim_C3_witness :
    extract_text_as_audio settings (fun _ => .ok ()) (fun _ _ _ => .ok " \t")
        (fun _ _ => .ok [7]) ⟨"a.png", "image/png"⟩ [0] "en"
      = ⟨.error 422 "No text found in the image.", true, false⟩ ∧
    text_to_audio (fun _ _ => .ok [7]) "  " "en"
      = ⟨.error 400 "Text cannot be empty.", false, false⟩ :=
  claim_C3 settings (fun _ => .ok ()) (fun _ _ _ => .ok " \t")
    (fun _ _ => .ok [7]) (fun _ _ => .ok [7]) ⟨"a.png", "image/png"⟩ [0] "en"
    " \t" "  " "en" rfl rfl rfl rfl rfl

/-- Claim C4: on each of the three image endpoints, a validator rejection is
returned as the response immediately, and neither the extraction gateway nor
the synthesis gateway is invoked. -/
theorem claim_C4 (s : Settings)
    (decodeImage : List ℕ → Except String Unit)
    (extractFn : List ℕ → String → String → Except String String)
    (synthFn : String → String → Except String (List ℕ))
    (file : UploadFile) (contents : List ℕ) (prompt lang : String)
    (e : HTTPException)
    (h : «_validate_upload» s file.content_type contents.length = .error e) :
    extract_text s decodeImage extractFn file contents
      = ⟨.error e.status_code e.detail, false, false⟩ ∧
    extract_text_with_prompt s decodeImage extractFn file contents prompt
      = ⟨.error e.status_code e.detail, false, false⟩ ∧
    extract_text_as_audio s decodeImage extractFn synthFn file contents lang
      = ⟨.error e.status_code e.detail, false, false⟩ := by
  refine ⟨?_, ?_, ?_⟩
  · unfold extract_text
    rw [h]
  · unfold extract_text_with_prompt
    rw [h]
  · unfold extract_text_as_audio
    rw [h]

/-- Concrete run of claim C4: a text/plain upload is answered with the
validator's 400 on all three image endpoints and no gateway runs. -/
theorem claim_C4_witness :
    extract_text settings (fun _ => .ok ()) (fun _ _ _ => .ok "hi")
        ⟨"a.txt", "text/plain"⟩ [0]
      = ⟨.error 400
          "Invalid file type. Allowed: image/jpeg, image/png, image/gif, image/webp",
          false, false⟩ ∧
    extract_text_with_prompt settings (fun _ => .ok ()) (fun _ _ _ => .ok "hi")
        ⟨"a.txt", "text/plain"⟩ [0] "read it"
      = ⟨.error 400
          "Invalid file type. Allowed: image/jpeg, image/png, image/gif, image/webp",
          false, false⟩ ∧
    extract_text_as_audio settings (fun _ => .ok ()) (fun _ _ _ => .ok "hi")
        (fun _ _ => .ok [7]) ⟨"a.txt", "text/plain"⟩ [0] "en"
      = ⟨.error 400
          "Invalid file type. Allowed: image/jpeg, image/png, image/gif, image/webp",
          false, false⟩ :=
  claim_C4 settings (fun _ => .ok ()) (fun _ _ _ => .ok "hi") (fun _ _ => .ok [7])
    ⟨"a.txt", "text/plain"⟩ [0] "read it" "en"
    ⟨400, invalidTypeDetail settings⟩ rfl

/-- Claim C5: on `/ocr`, for an accepted upload whose extraction returns the
text `T`, the response is a text/plain attachment whose body is exactly `T`
(the empty string included) and whose filename is the original filename with
its extension stripped followed by the `_extracted.txt` suffix. -/
theorem claim_C5 (s : Settings)
    (decodeImage : List ℕ → Except String Unit)
    (extractFn : List ℕ → String → String → Except String String)
    (file : UploadFile) (contents : List ℕ) (T : String)
    (hv : «_validate_upload» s file.content_type contents.length = .ok ())
    (hd : decodeImage contents = .ok ())
    (he : extractFn contents file.content_type DEFAULT_PROMPT = .ok T) :
    extract_text s decodeImage extractFn file contents
      = ⟨.text T "text/plain; charset=utf-8"
          ("attachment; filename=\"" ++ splitextRoot file.filename ++ "_extracted.txt\""),
          true, false⟩ := by
  unfold extract_text
  rw [hv, hd, he]
  rfl

/-- Concrete run of claim C5: with the gateway returning Hello world, a
`scan.png` upload yields that body verbatim under the name
`scan_extracted.txt`. -/
theorem claim_C5_witness :
    extract_text settings (fun _ => .ok ()) (fun _ _ _ => .ok "Hello world")
        ⟨"scan.png", "image/png"⟩ [0]
      = ⟨.text "Hello world" "text/plain; charset=utf-8"
          "attachment; filename=\"scan_extracted.txt\"", true, false⟩ := by
  rw [claim_C5 settings (fun _ => .ok ()) (fun _ _ _ => .ok "Hello world")
    ⟨"scan.png", "image/png"⟩ [0] "Hello world" rfl rfl rfl]
  rfl

/-- Claim C7: on each image endpoint, bytes that pass the validator but fail
to decode as an image terminate the request with the generic 500 processing
error (no distinct error kind) and the extraction gateway is never called. -/
theorem claim_C7 (s : Settings)
    (decodeImage : List ℕ → Except String Unit)
    (extractFn : List ℕ → String → String → Except String String)
    (synthFn : String → String → Except String (List ℕ))
    (file : UploadFile) (contents : List ℕ) (prompt lang : String)
    (msg : String)
    (hv : «_validate_upload» s file.content_type contents.length = .ok ())
    (hd : decodeImage contents = .error msg) :
    extract_text s decodeImage extractFn file contents
      = ⟨.error 500 ("Error processing image: " ++ msg), false, false⟩ ∧
    extract_text_with_prompt s decodeImage extractFn file contents prompt
      = ⟨.error 500 ("Error processing image: " ++ msg), false, false⟩ ∧
    extract_text_as_audio s decodeImage extractFn synthFn file contents lang
      = ⟨.error 500 ("Error processing image: " ++ msg), false, false⟩ := by
  refine ⟨?_, ?_, ?_⟩
  · unfold extract_text
    rw [hv, hd]
  · unfold extract_text_with_prompt
    rw [hv, hd]
  · unfold extract_text_as_audio
    rw [hv, hd]

/-- Concrete run of claim C7: an accepted image/png payload whose bytes PIL
cannot identify draws the generic 500 on all three image endpoints with no
extraction call. -/
theorem claim_C7_witness :
    extract_text settings (fun _ => .error "cannot identify image file")
        (fun _ _ _ => .ok "hi") ⟨"a.png", "image/png"⟩ [0]
      = ⟨.error 500 "Error processing image: cannot identify image file",
          false, false⟩ ∧
    extract_text_with_prompt settings (fun _ => .error "cannot identify image file")
        (fun _ _ _ => .ok "hi") ⟨"a.png", "image/png"⟩ [0] "read it"
      = ⟨.error 500 "Error processing image: cannot identify image file",
          false, false⟩ ∧
    extract_text_as_audio settings (fun _ => .error "cannot identify image file")
        (fun _ _ _ => .ok "hi") (fun _ _ => .ok [7]) ⟨"a.png", "image/png"⟩ [0] "en"
      = ⟨.error 500 "Error processing image: cannot identify image file",
          false, false⟩ :=
  claim_C7 settings (fun _ => .error "cannot identify image file")
    (fun _ _ _ => .ok "hi") (fun _ _ => .ok [7]) ⟨"a.png", "image/png"⟩ [0]
    "read it" "en" "cannot identify image file" rfl rfl
